import Mathlib

/-!
Verification of the bulk air-sea CO2 flux core (`pyseaflux/flux_calculations.py`)
against its specification.

The numeric arithmetic of the source is embedded over `ℚ`; fields (numpy
arrays / xarray DataArrays) are embedded as functions `Fin n → ℚ` over a
flattened index, together with the list of dimension labels when the field
is a labeled array.  The two external collaborators (the solubility model
`solubility_weiss1974` and the area provider `get_area_from_dataset`) are
abstract function parameters, as the spec treats them as capability
interfaces the core calls but does not define.
-/

namespace SeaFlux

/-- The solubility collaborator: `(salt, temp_K, pres_atm) ↦ K0`. -/
abbrev SolFn := ℚ → ℚ → ℚ → ℚ

/-- An xarray `DataArray` over a flattened index: dimension labels,
element data, and the `units` / `description` attributes. -/
structure DataArray (n : ℕ) where
  dims : List String
  data : Fin n → ℚ
  units : Option String := none
  description : Option String := none

/-- A 0-dimensional result field (the reduced `fgco2_global`). -/
structure ScalarField where
  value : ℚ
  units : Option String := none
  description : Option String := none

/-- The return value of `flux_bulk`: either the bare flux field
(scalar / plain ndarray case) or the assembled `xr.Dataset` holding
exactly the fields `fgco2`, `area` and `fgco2_global`. -/
inductive FluxResult (n : ℕ) where
  | plain (data : Fin n → ℚ)
  | dataset (fgco2 : DataArray n) (area : DataArray n) (fgco2_global : ScalarField)

/-- The six numeric inputs of `flux_bulk`, broadcast to a common flattened
shape `Fin n` (the spec's invariant: all inputs broadcast-compatible). -/
structure GridInput (n : ℕ) where
  temp_C : Fin n → ℚ
  salt : Fin n → ℚ
  pCO2_sea_uatm : Fin n → ℚ
  pCO2_air_uatm : Fin n → ℚ
  pres_hPa : Fin n → ℚ
  kw_cmhr : Fin n → ℚ

/-- The scalar numeric body of `flux_bulk`
(`src/pyseaflux/flux_calculations.py`, lines 55-75), transcribed
let-for-let from the source:

    pres_atm = pres_hPa / 1013.25
    temp_K = temp_C + 273.15
    pCO2sea = pCO2_sea_uatm * 1e-6
    pCO2air = pCO2_air_uatm * 1e-6
    K0 = sol.solubility_weiss1974(salt, temp_K, pres_atm)
    kw = kw_cmhr * (24 / 100)
    mC = 12.0108 * 1000
    CO2flux_bulk = kw * K0 * (pCO2sea - pCO2air) * mC
-/
def flux_bulk_core (sol : SolFn) (temp_C salt pCO2_sea_uatm pCO2_air_uatm pres_hPa kw_cmhr : ℚ) : ℚ :=
  let pres_atm := pres_hPa / 1013.25
  let temp_K := temp_C + 273.15
  let pCO2sea := pCO2_sea_uatm * 1e-6
  let pCO2air := pCO2_air_uatm * 1e-6
  let K0 := sol salt temp_K pres_atm
  let kw := kw_cmhr * (24 / 100)
  let mC := 12.0108 * 1000
  kw * K0 * (pCO2sea - pCO2air) * mC

/-- Element-wise evaluation of the flux body over a grid: numpy/xarray
arithmetic on broadcast-compatible arrays is pointwise. -/
def fluxData {n : ℕ} (sol : SolFn) (inp : GridInput n) : Fin n → ℚ :=
  fun i =>
    flux_bulk_core sol (inp.temp_C i) (inp.salt i) (inp.pCO2_sea_uatm i)
      (inp.pCO2_air_uatm i) (inp.pres_hPa i) (inp.kw_cmhr i)

/-- Dimension labels of an xarray binary-operation result: the union of the
two operands' labels (broadcasting). -/
def unionDims (a b : List String) : List String :=
  a ++ b.filter (fun d => ! a.contains d)

/-- `DataArray.sum(dims)`: xarray raises `ValueError` when a requested
dimension is absent, modelled as `none`.  When the reduction succeeds the
model returns the sum of all elements; the model therefore represents
arrays whose dimensions are all reduced away (the lat x lon grids the
composite branch of the source produces). -/
def sumDims {n : ℕ} (da : DataArray n) (req : List String) : Option ℚ :=
  if ∀ d ∈ req, d ∈ da.dims then some (∑ i, da.data i) else none

/-- The local `CO2flux_bulk` of the source, as the `xr.DataArray` it is in
the labeled branch: the element-wise flux values with the dimension labels
carried over from the inputs (xarray arithmetic attaches no attributes). -/
def fluxDA {n : ℕ} (sol : SolFn) (inp : GridInput n) (dims : List String) : DataArray n :=
  { dims := dims, data := fluxData sol inp }

/-- The intermediate product `CO2flux_bulk * area * 365` of the source
(line 84): element-wise data, broadcast dimension labels. -/
def prodDA {n : ℕ} (sol : SolFn) (getArea : DataArray n → DataArray n)
    (inp : GridInput n) (dims : List String) : DataArray n :=
  { dims := unionDims dims (getArea (fluxDA sol inp dims)).dims
    data := fun i => fluxData sol inp i * (getArea (fluxDA sol inp dims)).data i * 365 }

/-- `flux_bulk` (`src/pyseaflux/flux_calculations.py`, lines 12-89).
`labels = none` models plain scalar/ndarray inputs (the computed
`CO2flux_bulk` is then not an `xr.DataArray` and is returned as is);
`labels = some dims` models the case where the computed flux is an
`xr.DataArray` with dimensions `dims`.  `getArea` is the collaborator
`get_area_from_dataset`.  A `none` result models the call raising. -/
def flux_bulk {n : ℕ} (sol : SolFn) (getArea : DataArray n → DataArray n)
    (inp : GridInput n) (labels : Option (List String)) : Option (FluxResult n) :=
  match labels with
  | none => some (FluxResult.plain (fluxData sol inp))
  | some dims =>
      (sumDims (prodDA sol getArea inp dims) ["lat", "lon"]).map
        (fun g =>
          FluxResult.dataset
            { fluxDA sol inp dims with
                units := some "gC/m2/day"
                description := some "Air sea CO2 fluxes calculated using the bulk formulation." }
            (getArea (fluxDA sol inp dims))
            { value := g
              units := some "gC/Yr"
              description := some "integrated fluxes fgco2 * area" })

/-- The flux values of a result, ignoring assembly: the data of the bare
field in the plain variant, the data of `fgco2` in the composite variant. -/
def fluxValues {n : ℕ} : FluxResult n → (Fin n → ℚ)
  | FluxResult.plain d => d
  | FluxResult.dataset fg _ _ => fg.data

theorem sumDims_pos {n : ℕ} (da : DataArray n) (req : List String)
    (h : ∀ d ∈ req, d ∈ da.dims) : sumDims da req = some (∑ i, da.data i) :=
  if_pos h

theorem sumDims_neg {n : ℕ} (da : DataArray n) (req : List String)
    (h : ¬ ∀ d ∈ req, d ∈ da.dims) : sumDims da req = none :=
  if_neg h

theorem mem_of_mem_unionDims {a b : List String} {d : String}
    (h : d ∈ unionDims a b) : d ∈ a ∨ d ∈ b := by
  rcases List.mem_append.mp h with h' | h'
  · exact Or.inl h'
  · exact Or.inr (List.mem_filter.mp h').1

/-- Unfolding of the labeled branch of `flux_bulk`. -/
theorem flux_bulk_labeled {n : ℕ} (sol : SolFn) (getArea : DataArray n → DataArray n)
    (inp : GridInput n) (dims : List String) :
    flux_bulk sol getArea inp (some dims) =
      (sumDims (prodDA sol getArea inp dims) ["lat", "lon"]).map
        (fun g =>
          FluxResult.dataset
            { fluxDA sol inp dims with
                units := some "gC/m2/day"
                description := some "Air sea CO2 fluxes calculated using the bulk formulation." }
            (getArea (fluxDA sol inp dims))
            { value := g
              units := some "gC/Yr"
              description := some "integrated fluxes fgco2 * area" }) := rfl

/-- When both `lat` and `lon` are among the flux field's labels, the
reduction succeeds and `flux_bulk` returns the assembled dataset. -/
theorem flux_bulk_dataset {n : ℕ} (sol : SolFn) (getArea : DataArray n → DataArray n)
    (inp : GridInput n) (dims : List String)
    (h1 : "lat" ∈ dims) (h2 : "lon" ∈ dims) :
    flux_bulk sol getArea inp (some dims) =
      some (FluxResult.dataset
        { dims := dims
          data := fluxData sol inp
          units := some "gC/m2/day"
          description := some "Air sea CO2 fluxes calculated using the bulk formulation." }
        (getArea (fluxDA sol inp dims))
        { value := ∑ i, fluxData sol inp i * (getArea (fluxDA sol inp dims)).data i * 365
          units := some "gC/Yr"
          description := some "integrated fluxes fgco2 * area" }) := by
  rw [flux_bulk_labeled, sumDims_pos]
  · rfl
  · intro d hd
    have hsub : dims ⊆ (prodDA sol getArea inp dims).dims := fun x hx =>
      List.mem_append_left _ hx
    rcases List.mem_cons.mp hd with rfl | hd'
    · exact hsub h1
    · rcases List.mem_cons.mp hd' with rfl | hd''
      · exact hsub h2
      · exact absurd hd'' (List.not_mem_nil d)

/-- When `lat` or `lon` is missing from the labels and the area provider
returns a field with the flux field's labels (its contract), the reduction
raises and the whole call fails. -/
theorem flux_bulk_none_of_missing {n : ℕ} (sol : SolFn)
    (getArea : DataArray n → DataArray n) (inp : GridInput n) (dims : List String)
    (harea : (getArea (fluxDA sol inp dims)).dims = dims)
    (h : ¬ ("lat" ∈ dims ∧ "lon" ∈ dims)) :
    flux_bulk sol getArea inp (some dims) = none := by
  rw [flux_bulk_labeled, sumDims_neg]
  · rfl
  · intro hall
    refine h ⟨?_, ?_⟩
    · have := hall "lat" (by simp)
      rcases mem_of_mem_unionDims this with h' | h'
      · exact h'
      · rwa [harea] at h'
    · have := hall "lon" (by simp)
      rcases mem_of_mem_unionDims this with h' | h'
      · exact h'
      · rwa [harea] at h'

/-- A labeled flux field is never returned through the bare-field branch. -/
theorem flux_bulk_ne_plain {n : ℕ} (sol : SolFn) (getArea : DataArray n → DataArray n)
    (inp : GridInput n) (dims : List String) (d : Fin n → ℚ) :
    flux_bulk sol getArea inp (some dims) ≠ some (FluxResult.plain d) := by
  rw [flux_bulk_labeled]
  cases hs : sumDims (prodDA sol getArea inp dims) ["lat", "lon"] with
  | none => simp
  | some g => simp

/-- Concrete collaborators and inputs used by witnesses and
counterexamples: a constant solubility model ... -/
def egSol : SolFn := fun _ _ _ => 35

/-- ... an area provider returning a unit-area field with the labels of the
reference field (the contract of `get_area_from_dataset` in the spec) ... -/
def egArea {n : ℕ} : DataArray n → DataArray n :=
  fun da => { dims := da.dims, data := fun _ => 1 }

/-- ... and a one-element grid with physically plausible values. -/
def egInp : GridInput 1 :=
  { temp_C := fun _ => 15
    salt := fun _ => 35
    pCO2_sea_uatm := fun _ => 400
    pCO2_air_uatm := fun _ => 380
    pres_hPa := fun _ => 1013.25
    kw_cmhr := fun _ => 10 }

/-- `egInp` with a zero gas-transfer velocity (calm sea): a numeric input
the source accepts, with `pCO2_sea_uatm > pCO2_air_uatm`. -/
def egInpKw0 : GridInput 1 :=
  { egInp with kw_cmhr := fun _ => 0 }

/-- `egInp` with equal sea and air partial pressures. -/
def egInpEq : GridInput 1 :=
  { egInp with pCO2_air_uatm := fun _ => 400 }

/-- The flux body written as one closed formula (definitional unfolding of
`flux_bulk_core`). -/
theorem flux_bulk_core_eq (sol : SolFn) (temp_C salt pCO2_sea_uatm pCO2_air_uatm pres_hPa kw_cmhr : ℚ) :
    flux_bulk_core sol temp_C salt pCO2_sea_uatm pCO2_air_uatm pres_hPa kw_cmhr =
      (kw_cmhr * (24 / 100)) *
        sol salt (temp_C + 273.15) (pres_hPa / 1013.25) *
        (pCO2_sea_uatm * 1e-6 - pCO2_air_uatm * 1e-6) *
        (12.0108 * 1000) := rfl

end SeaFlux

namespace SeaFlux

/-- C1: `flux_bulk` computes the flux element-wise as
`kw_m_per_day * K0 * (pCO2_sea_atm - pCO2_air_atm) * molarMass_g_per_mmol`,
with `kw_m_per_day = kw_cmhr * 24/100`, partial pressures scaled by `1e-6`,
`molarMass = 12.0108 * 1000`, and `K0` the solubility collaborator's value
at `(salt, temp_C + 273.15, pres_hPa / 1013.25)`. -/
theorem C1_flux_formula {n : ℕ} (sol : SolFn) (getArea : DataArray n → DataArray n)
    (inp : GridInput n) :
    flux_bulk sol getArea inp none =
      some (FluxResult.plain (fun i =>
        (inp.kw_cmhr i * (24 / 100)) *
          sol (inp.salt i) (inp.temp_C i + 273.15) (inp.pres_hPa i / 1013.25) *
          (inp.pCO2_sea_uatm i * 1e-6 - inp.pCO2_air_uatm i * 1e-6) *
          (12.0108 * 1000))) := by
  rfl

/-- C4 counterexample: at a one-element input with
`pCO2_sea_uatm = 400 > 380 = pCO2_air_uatm` but `kw_cmhr = 0`, the computed
flux is `0`, not strictly positive, refuting the claim as stated. -/
theorem C4_counterexample :
    egInpKw0.pCO2_air_uatm 0 < egInpKw0.pCO2_sea_uatm 0 ∧
      ¬ 0 < fluxData egSol egInpKw0 0 := by
  constructor
  · norm_num [egInpKw0, egInp]
  · norm_num [fluxData, flux_bulk_core, egSol, egInpKw0, egInp]

/-- C4 amended: at any element where the gas-transfer velocity and the
solubility value are strictly positive, `pCO2_sea_uatm > pCO2_air_uatm`
gives a strictly positive flux (outgassing) and
`pCO2_sea_uatm < pCO2_air_uatm` a strictly negative flux (uptake). -/
theorem C4_amended {n : ℕ} (sol : SolFn) (inp : GridInput n) (i : Fin n)
    (hkw : 0 < inp.kw_cmhr i)
    (hK0 : 0 < sol (inp.salt i) (inp.temp_C i + 273.15) (inp.pres_hPa i / 1013.25)) :
    (inp.pCO2_air_uatm i < inp.pCO2_sea_uatm i → 0 < fluxData sol inp i) ∧
      (inp.pCO2_sea_uatm i < inp.pCO2_air_uatm i → fluxData sol inp i < 0) := by
  have h1 : 0 < inp.kw_cmhr i * (24 / 100) :=
    mul_pos hkw (by norm_num)
  have hA : 0 < inp.kw_cmhr i * (24 / 100) *
      sol (inp.salt i) (inp.temp_C i + 273.15) (inp.pres_hPa i / 1013.25) :=
    mul_pos h1 hK0
  have hform : fluxData sol inp i =
      (inp.kw_cmhr i * (24 / 100)) *
        sol (inp.salt i) (inp.temp_C i + 273.15) (inp.pres_hPa i / 1013.25) *
        (inp.pCO2_sea_uatm i * 1e-6 - inp.pCO2_air_uatm i * 1e-6) *
        (12.0108 * 1000) := rfl
  constructor
  · intro h
    have h2 : 0 < inp.pCO2_sea_uatm i * 1e-6 - inp.pCO2_air_uatm i * 1e-6 := by
      have := mul_lt_mul_of_pos_right h (show (0:ℚ) < 1e-6 by norm_num)
      linarith
    rw [hform]
    exact mul_pos (mul_pos hA h2) (by norm_num)
  · intro h
    have h2 : inp.pCO2_sea_uatm i * 1e-6 - inp.pCO2_air_uatm i * 1e-6 < 0 := by
      have := mul_lt_mul_of_pos_right h (show (0:ℚ) < 1e-6 by norm_num)
      linarith
    rw [hform]
    exact mul_neg_of_neg_of_pos (mul_neg_of_pos_of_neg hA h2) (by norm_num)

/-- C4 amended, witness: the amended theorem applied at the concrete
one-element grid `egInp` (`kw_cmhr = 10 > 0`, `K0 = 35 > 0`). -/
theorem C4_amended_witness :
    (egInp.pCO2_air_uatm 0 < egInp.pCO2_sea_uatm 0 → 0 < fluxData egSol egInp 0) ∧
      (egInp.pCO2_sea_uatm 0 < egInp.pCO2_air_uatm 0 → fluxData egSol egInp 0 < 0) :=
  C4_amended egSol egInp 0 (by decide) (by decide)

/-- C5: at any element where the sea and air partial pressures are equal,
the computed flux is exactly zero, whatever the (finite) values of the
other inputs and of the solubility collaborator. -/
theorem C5_zero_delta {n : ℕ} (sol : SolFn) (inp : GridInput n) (i : Fin n)
    (h : inp.pCO2_sea_uatm i = inp.pCO2_air_uatm i) :
    fluxData sol inp i = 0 := by
  have hform : fluxData sol inp i =
      (inp.kw_cmhr i * (24 / 100)) *
        sol (inp.salt i) (inp.temp_C i + 273.15) (inp.pres_hPa i / 1013.25) *
        (inp.pCO2_sea_uatm i * 1e-6 - inp.pCO2_air_uatm i * 1e-6) *
        (12.0108 * 1000) := rfl
  rw [hform, h]
  ring

/-- C5 witness: the zero-delta theorem applied at the concrete grid whose
sea and air partial pressures are both 400 uatm. -/
theorem C5_zero_delta_witness : fluxData egSol egInpEq 0 = 0 :=
  C5_zero_delta egSol egInpEq 0 rfl

/-- C6: for fixed temperature, salinity, pressure and solubility model, the
flux is linear in the partial-pressure difference — scaling the difference
by `c` scales the flux by `c`, differences add, and doubling `kw_cmhr`
doubles the flux. -/
theorem C6_linearity (sol : SolFn) (t s pr kw pa c d1 d2 : ℚ) :
    flux_bulk_core sol t s (pa + c * d1) pa pr kw =
        c * flux_bulk_core sol t s (pa + d1) pa pr kw ∧
      flux_bulk_core sol t s (pa + (d1 + d2)) pa pr kw =
        flux_bulk_core sol t s (pa + d1) pa pr kw +
          flux_bulk_core sol t s (pa + d2) pa pr kw ∧
      flux_bulk_core sol t s (pa + d1) pa pr (2 * kw) =
        2 * flux_bulk_core sol t s (pa + d1) pa pr kw := by
  refine ⟨?_, ?_, ?_⟩ <;>
    simp only [flux_bulk_core_eq] <;> ring

/-- Formalisation of the claim's phrase "carries spatial-label metadata":
the field's dimension labels include a spatial one. -/
def hasSpatialLabels (dims : List String) : Prop :=
  "lat" ∈ dims ∨ "lon" ∈ dims

/-- C2 counterexample: a flux field labeled only with the non-spatial
dimension `time` carries no spatial-label metadata, yet `flux_bulk` does
not return it unchanged as a bare field — the call fails (the source
enters the composite branch because the value is an `xr.DataArray`, and
the `lat`/`lon` reduction raises). -/
theorem C2_counterexample :
    ¬ hasSpatialLabels ["time"] ∧
      flux_bulk egSol (egArea (n := 1)) egInp (some ["time"]) ≠
        some (FluxResult.plain (fluxData egSol egInp)) := by
  constructor
  · intro h
    rcases h with h | h <;> simp at h
  · rw [flux_bulk_none_of_missing egSol egArea egInp ["time"] rfl (by simp)]
    simp

/-- C2 amended: `flux_bulk` returns the bare flux field exactly when the
flux value is not a labeled array; for a labeled array whose labels
include both `lat` and `lon` it returns the composite dataset with exactly
the fields `fgco2` (the flux values, units `gC/m2/day`), `area` (the area
provider's field) and `fgco2_global`; for a labeled array missing `lat` or
`lon` (the area provider matching the flux field's labels) the call fails
instead of falling back to the bare variant. -/
theorem C2_amended {n : ℕ} (sol : SolFn) (getArea : DataArray n → DataArray n)
    (inp : GridInput n) (dims : List String) :
    (flux_bulk sol getArea inp none = some (FluxResult.plain (fluxData sol inp))) ∧
      ("lat" ∈ dims → "lon" ∈ dims →
        ∃ gl : ScalarField,
          flux_bulk sol getArea inp (some dims) =
            some (FluxResult.dataset
              { dims := dims
                data := fluxData sol inp
                units := some "gC/m2/day"
                description := some "Air sea CO2 fluxes calculated using the bulk formulation." }
              (getArea (fluxDA sol inp dims)) gl)) ∧
      ((getArea (fluxDA sol inp dims)).dims = dims →
        ¬ ("lat" ∈ dims ∧ "lon" ∈ dims) →
        flux_bulk sol getArea inp (some dims) = none) ∧
      (∀ d : Fin n → ℚ,
        flux_bulk sol getArea inp (some dims) ≠ some (FluxResult.plain d)) := by
  refine ⟨rfl, ?_, ?_, ?_⟩
  · intro h1 h2
    exact ⟨_, flux_bulk_dataset sol getArea inp dims h1 h2⟩
  · intro harea h
    exact flux_bulk_none_of_missing sol getArea inp dims harea h
  · exact flux_bulk_ne_plain sol getArea inp dims

/-- C2 amended, witness: the labeled-and-gridded conjunct instantiated at
the concrete one-element `lat`/`lon` grid, hypotheses discharged. -/
theorem C2_amended_witness :
    ∃ gl : ScalarField,
      flux_bulk egSol (egArea (n := 1)) egInp (some ["lat", "lon"]) =
        some (FluxResult.dataset
          { dims := ["lat", "lon"]
            data := fluxData egSol egInp
            units := some "gC/m2/day"
            description := some "Air sea CO2 fluxes calculated using the bulk formulation." }
          (egArea (fluxDA egSol egInp ["lat", "lon"])) gl) :=
  (C2_amended egSol egArea egInp ["lat", "lon"]).2.1 (by simp) (by simp)

/-- C3: for a labeled `lat`/`lon` grid, `fgco2_global` is exactly the sum
over the spatial dimensions of `fgco2 * area * 365`, annotated with units
`gC/Yr`. -/
theorem C3_global_integral {n : ℕ} (sol : SolFn) (getArea : DataArray n → DataArray n)
    (inp : GridInput n) (dims : List String) (h : dims = ["lat", "lon"]) :
    ∃ fg a : DataArray n,
      flux_bulk sol getArea inp (some dims) =
        some (FluxResult.dataset fg a
          { value := ∑ i, fg.data i * a.data i * 365
            units := some "gC/Yr"
            description := some "integrated fluxes fgco2 * area" }) := by
  subst h
  exact ⟨_, _, flux_bulk_dataset sol getArea inp ["lat", "lon"] (by simp) (by simp)⟩

/-- C3 witness: the aggregation theorem at the concrete one-element
`lat`/`lon` grid. -/
theorem C3_global_integral_witness :
    ∃ fg a : DataArray 1,
      flux_bulk egSol (egArea (n := 1)) egInp (some ["lat", "lon"]) =
        some (FluxResult.dataset fg a
          { value := ∑ i, fg.data i * a.data i * 365
            units := some "gC/Yr"
            description := some "integrated fluxes fgco2 * area" }) :=
  C3_global_integral egSol egArea egInp ["lat", "lon"] rfl

/-- C9: with the area provider honouring its contract (labels matching the
flux field's), the labeled branch fails exactly when `lat` and `lon` are
not both among the labels — the reduction is over exactly those two
dimensions — and a labeled flux value is never returned through the
bare-field branch, whatever its labels. -/
theorem C9_latlon_reduction {n : ℕ} (sol : SolFn) (getArea : DataArray n → DataArray n)
    (inp : GridInput n) (dims : List String)
    (harea : (getArea (fluxDA sol inp dims)).dims = dims) :
    (flux_bulk sol getArea inp (some dims) = none ↔
        ¬ ("lat" ∈ dims ∧ "lon" ∈ dims)) ∧
      ∀ d : Fin n → ℚ,
        flux_bulk sol getArea inp (some dims) ≠ some (FluxResult.plain d) := by
  constructor
  · constructor
    · intro hnone hll
      rw [flux_bulk_dataset sol getArea inp dims hll.1 hll.2] at hnone
      exact Option.noConfusion hnone
    · intro h
      exact flux_bulk_none_of_missing sol getArea inp dims harea h
  · exact flux_bulk_ne_plain sol getArea inp dims

/-- C9 witness: at the concrete one-element input labeled only with
`time`, the call fails rather than returning the bare field. -/
theorem C9_latlon_reduction_witness :
    (flux_bulk egSol (egArea (n := 1)) egInp (some ["time"]) = none ↔
        ¬ ("lat" ∈ ["time"] ∧ "lon" ∈ ["time"])) ∧
      ∀ d : Fin 1 → ℚ,
        flux_bulk egSol (egArea (n := 1)) egInp (some ["time"]) ≠
          some (FluxResult.plain d) :=
  C9_latlon_reduction egSol egArea egInp ["time"] rfl

/-- C10: result assembly never alters flux values — the data of `fgco2` in
the composite variant and the bare field of the plain variant are both
exactly the element-wise flux values. -/
theorem C10_assembly_preserves_flux {n : ℕ} (sol : SolFn)
    (getArea : DataArray n → DataArray n) (inp : GridInput n) (dims : List String)
    (h1 : "lat" ∈ dims) (h2 : "lon" ∈ dims) :
    Option.map fluxValues (flux_bulk sol getArea inp (some dims)) =
        some (fluxData sol inp) ∧
      Option.map fluxValues (flux_bulk sol getArea inp none) =
        some (fluxData sol inp) := by
  constructor
  · rw [flux_bulk_dataset sol getArea inp dims h1 h2]
    rfl
  · rfl

/-- C10 witness: both variants carry the same flux values at the concrete
one-element `lat`/`lon` grid. -/
theorem C10_assembly_preserves_flux_witness :
    Option.map fluxValues (flux_bulk egSol (egArea (n := 1)) egInp (some ["lat", "lon"])) =
        some (fluxData egSol egInp) ∧
      Option.map fluxValues (flux_bulk egSol (egArea (n := 1)) egInp none) =
        some (fluxData egSol egInp) :=
  C10_assembly_preserves_flux egSol egArea egInp ["lat", "lon"] (by simp) (by simp)

end SeaFlux

namespace SeaFlux

/-- A floating-point value as the flux arithmetic sees it: a finite number
or NaN.  IEEE 754 propagation: every arithmetic operation with a NaN
operand yields NaN. -/
inductive FpVal where
  | nan : FpVal
  | num : ℚ → FpVal
deriving DecidableEq

def FpVal.add : FpVal → FpVal → FpVal
  | FpVal.num a, FpVal.num b => FpVal.num (a + b)
  | _, _ => FpVal.nan

def FpVal.sub : FpVal → FpVal → FpVal
  | FpVal.num a, FpVal.num b => FpVal.num (a - b)
  | _, _ => FpVal.nan

def FpVal.mul : FpVal → FpVal → FpVal
  | FpVal.num a, FpVal.num b => FpVal.num (a * b)
  | _, _ => FpVal.nan

/-- Division (the source divides only by the nonzero constant 1013.25, so
the zero-divisor case never arises in it). -/
def FpVal.div : FpVal → FpVal → FpVal
  | FpVal.num a, FpVal.num b => if b = 0 then FpVal.nan else FpVal.num (a / b)
  | _, _ => FpVal.nan

theorem FpVal.nan_add (x : FpVal) : FpVal.add FpVal.nan x = FpVal.nan := by
  cases x <;> rfl

theorem FpVal.add_nan (x : FpVal) : FpVal.add x FpVal.nan = FpVal.nan := by
  cases x <;> rfl

theorem FpVal.nan_sub (x : FpVal) : FpVal.sub FpVal.nan x = FpVal.nan := by
  cases x <;> rfl

theorem FpVal.sub_nan (x : FpVal) : FpVal.sub x FpVal.nan = FpVal.nan := by
  cases x <;> rfl

theorem FpVal.nan_mul (x : FpVal) : FpVal.mul FpVal.nan x = FpVal.nan := by
  cases x <;> rfl

theorem FpVal.mul_nan (x : FpVal) : FpVal.mul x FpVal.nan = FpVal.nan := by
  cases x <;> rfl

theorem FpVal.nan_div (x : FpVal) : FpVal.div FpVal.nan x = FpVal.nan := by
  cases x <;> rfl

/-- The six inputs of `flux_bulk` over floating-point elements. -/
structure GridInputFp (n : ℕ) where
  temp_C : Fin n → FpVal
  salt : Fin n → FpVal
  pCO2_sea_uatm : Fin n → FpVal
  pCO2_air_uatm : Fin n → FpVal
  pres_hPa : Fin n → FpVal
  kw_cmhr : Fin n → FpVal

/-- The numeric body of `flux_bulk` over floating-point elements,
transcribed operation for operation from the source; it is a total
function — the source performs no input-range validation and raises
nothing itself. -/
def flux_bulk_core_fp (sol : FpVal → FpVal → FpVal → FpVal)
    (temp_C salt pCO2_sea_uatm pCO2_air_uatm pres_hPa kw_cmhr : FpVal) : FpVal :=
  let pres_atm := FpVal.div pres_hPa (FpVal.num 1013.25)
  let temp_K := FpVal.add temp_C (FpVal.num 273.15)
  let pCO2sea := FpVal.mul pCO2_sea_uatm (FpVal.num 1e-6)
  let pCO2air := FpVal.mul pCO2_air_uatm (FpVal.num 1e-6)
  let K0 := sol salt temp_K pres_atm
  let kw := FpVal.mul kw_cmhr (FpVal.num (24 / 100))
  let mC := FpVal.mul (FpVal.num 12.0108) (FpVal.num 1000)
  FpVal.mul (FpVal.mul (FpVal.mul kw K0) (FpVal.sub pCO2sea pCO2air)) mC

/-- Element-wise evaluation over a floating-point grid. -/
def fluxDataFp {n : ℕ} (sol : FpVal → FpVal → FpVal → FpVal)
    (inp : GridInputFp n) : Fin n → FpVal :=
  fun i =>
    flux_bulk_core_fp sol (inp.temp_C i) (inp.salt i) (inp.pCO2_sea_uatm i)
      (inp.pCO2_air_uatm i) (inp.pres_hPa i) (inp.kw_cmhr i)

/-- C7: the flux body is a total function (no internal error, no
input-range validation), and a NaN in any input at an element — for the
three inputs routed through the solubility collaborator, assuming that
collaborator propagates NaN — makes the output at that element NaN,
leaving other elements untouched. -/
theorem C7_nan_propagation {n : ℕ} (sol : FpVal → FpVal → FpVal → FpVal)
    (hsol : ∀ a b c, (a = FpVal.nan ∨ b = FpVal.nan ∨ c = FpVal.nan) →
      sol a b c = FpVal.nan)
    (inp : GridInputFp n) (i : Fin n)
    (h : inp.temp_C i = FpVal.nan ∨ inp.salt i = FpVal.nan ∨
      inp.pCO2_sea_uatm i = FpVal.nan ∨ inp.pCO2_air_uatm i = FpVal.nan ∨
      inp.pres_hPa i = FpVal.nan ∨ inp.kw_cmhr i = FpVal.nan) :
    fluxDataFp sol inp i = FpVal.nan := by
  rcases h with h | h | h | h | h | h <;>
    simp [fluxDataFp, flux_bulk_core_fp, h, hsol, FpVal.nan_add, FpVal.add_nan,
      FpVal.nan_sub, FpVal.sub_nan, FpVal.nan_mul, FpVal.mul_nan, FpVal.nan_div]

/-- A concrete NaN-propagating solubility collaborator. -/
def egSolFp : FpVal → FpVal → FpVal → FpVal := fun a b c =>
  match a, b, c with
  | FpVal.num _, FpVal.num _, FpVal.num _ => FpVal.num 35
  | _, _, _ => FpVal.nan

/-- A one-element grid with a NaN sea partial pressure. -/
def egInpFp : GridInputFp 1 :=
  { temp_C := fun _ => FpVal.num 15
    salt := fun _ => FpVal.num 35
    pCO2_sea_uatm := fun _ => FpVal.nan
    pCO2_air_uatm := fun _ => FpVal.num 380
    pres_hPa := fun _ => FpVal.num 1013.25
    kw_cmhr := fun _ => FpVal.num 10 }

/-- C7 witness: a NaN sea partial pressure at the single element yields a
NaN flux there. -/
theorem C7_nan_propagation_witness : fluxDataFp egSolFp egInpFp 0 = FpVal.nan :=
  C7_nan_propagation egSolFp
    (fun a b c h => by
      rcases h with rfl | rfl | rfl
      · cases b <;> cases c <;> rfl
      · cases a <;> cases c <;> rfl
      · cases a <;> cases b <;> rfl)
    egInpFp 0 (Or.inr (Or.inr (Or.inl rfl)))

/-- C8: `flux_bulk` is deterministic — two calls with identical inputs and
identical collaborators return identical outputs.  The embedding is a pure
function, faithfully to the source, which rebinds local names but never
writes into any input array, so no input field is mutated by a call. -/
theorem C8_deterministic {n : ℕ} (sol sol' : SolFn)
    (getArea getArea' : DataArray n → DataArray n)
    (inp inp' : GridInput n) (labels labels' : Option (List String))
    (hs : sol' = sol) (hg : getArea' = getArea) (hi : inp' = inp)
    (hl : labels' = labels) :
    flux_bulk sol' getArea' inp' labels' = flux_bulk sol getArea inp labels := by
  subst hs; subst hg; subst hi; subst hl; rfl

/-- C8 witness: two identical concrete calls agree. -/
theorem C8_deterministic_witness :
    flux_bulk egSol (egArea (n := 1)) egInp none =
      flux_bulk egSol (egArea (n := 1)) egInp none :=
  C8_deterministic egSol egSol egArea egArea egInp egInp none none rfl rfl rfl rfl

end SeaFlux
